import Mathlib

/-!
# Verification of the SonoffLAN setup/dispatch orchestration core

Shallow embedding of `custom_components/sonoff/__init__.py`:

* `UNIQUE_DEVICES` (a process-wide dict) is threaded explicitly as a `Table`
  (association list); `dict.setdefault` becomes `setdefault`.
* `internal_unique_devices` is the ownership filter over that table.
* `async_setup_entry`, `internal_normal_setup` and `internal_cache_setup`
  are modelled as pure functions from an environment (entry state, mode,
  credentials, the result the cloud login would produce, cloud device list,
  cache contents) to a `SetupResult`: the trace of observable actions of the
  whole setup cycle (including the actions of tasks launched with
  `hass.async_create_task`, which run on the same event loop), the surfaced
  outcome (`none` = returned `True`; `some e` = raised `e`), and the updated
  ownership table and registry device map.
* `send_command` is the service dispatcher; `DispatchResult.raisedStopIteration`
  records that the bare `next(...)` over registries raises when no registry
  holds the device.

Error mapping: the spec's `InvalidCredentials` is `ConfigEntryAuthFailed`,
the spec's `TransientConnectivity` is `ConfigEntryNotReady`.

`XRegistry.setup_devices` and the cloud `login`/`auth` contract live in
`custom_components/sonoff/core/ewelink`, which is not part of the sources
here; those two pieces are modelled from the spec (see the doc comments on
`setup_devices` and `async_setup_entry`).
-/

namespace Sonoff

/-- Account connection mode (`entry.options[CONF_MODE]`, default `auto`). -/
inductive Mode
  | auto
  | cloud
  | local
deriving DecidableEq, Repr

/-- Outcome the cloud login would produce if attempted: success,
`AuthError` (invalid credentials), or any other exception (transient). -/
inductive LoginResult
  | success
  | authError
  | transientError
deriving DecidableEq, Repr

/-- Exception surfaced by `async_setup_entry` to Home Assistant.
`ConfigEntryAuthFailed` is fatal (re-auth flow); `ConfigEntryNotReady` is
retryable (entry moves to `SETUP_RETRY`); `AssertionFailed` models the
`assert mode in ("auto", "cloud")` on the retry path. -/
inductive SetupError
  | ConfigEntryAuthFailed
  | ConfigEntryNotReady
  | AssertionFailed
deriving DecidableEq, Repr

/-- Observable actions of one setup cycle. -/
inductive Action
  | login
  | cloudStart
  | localStart
  | cacheSetupLaunched
  | normalSetupLaunched
  | getDevices
  | cacheSave
  | cacheLoad
  | setupDevices
deriving DecidableEq, Repr

/-- A device record: only `deviceid` is inspected by the orchestration code;
`params` stands for the rest of the raw device dict. -/
structure Device where
  deviceid : String
  params : List (String × String) := []
deriving DecidableEq, Repr

/-- The `UNIQUE_DEVICES` dict: deviceid → owning entry id, kept in insertion
order as an association list. -/
abbrev Table := List (String × String)

/-- Dict lookup: the value bound to `k`, if any. -/
def lookupTable (t : Table) (k : String) : Option String :=
  match t.find? (fun p => p.1 == k) with
  | some p => some p.2
  | none => none

/-- Python `dict.setdefault(k, v)`: returns the existing value if `k` is
bound, otherwise binds `k` to `v` and returns `v`; also returns the
(possibly updated) dict. -/
def setdefault (t : Table) (k v : String) : String × Table :=
  match t.find? (fun p => p.1 == k) with
  | some p => (p.2, t)
  | none => (v, t ++ [(k, v)])

/-- The DedupArbiter claim operation: `UNIQUE_DEVICES.setdefault(deviceid, uid)`. -/
def claim (t : Table) (id uid : String) : String × Table :=
  setdefault t id uid

/-- `internal_unique_devices(uid, devices)`: keeps each device whose
`setdefault` over the ownership table returns `uid`, threading the table. -/
def internal_unique_devices (uid : String) : Table → List Device → List Device × Table
  | t, [] => ([], t)
  | t, d :: rest =>
      (if (setdefault t d.deviceid uid).1 == uid then
        d :: (internal_unique_devices uid (setdefault t d.deviceid uid).2 rest).1
      else
        (internal_unique_devices uid (setdefault t d.deviceid uid).2 rest).1,
      (internal_unique_devices uid (setdefault t d.deviceid uid).2 rest).2)

/-- A registry's `devices` map: deviceid → device. -/
abbrev DeviceMap := List (String × Device)

/-- Whether the map holds a device under key `k`. -/
def hasKey (m : DeviceMap) (k : String) : Bool :=
  m.any (fun p => p.1 == k)

/-- Insert-or-replace a device under its `deviceid`. -/
def insertDevice (m : DeviceMap) (d : Device) : DeviceMap :=
  if hasKey m d.deviceid then
    m.map (fun p => if p.1 == d.deviceid then (p.1, d) else p)
  else
    m ++ [(d.deviceid, d)]

/-- Per-account registry: its device map. -/
structure Registry where
  devices : DeviceMap
deriving DecidableEq, Repr

/-- Modelled from the spec: `XRegistry.setup_devices` is defined in
`custom_components/sonoff/core/ewelink`, which is absent from the sources
here. Spec §4.3: "`setupDevices(devices)`: replaces/merges the owned device
map" — each passed device is inserted into the map under its `deviceid`. -/
def setup_devices (r : Registry) (ds : List Device) : Registry :=
  ⟨ds.foldl insertDevice r.devices⟩

/-- Result of one `send_command` service call. `raisedStopIteration` records
that the bare `next(r for r in ... if deviceid in r.devices)` raised because
no registry holds the device: the exception propagates to the caller and
nothing is logged. -/
inductive DispatchResult
  | sent
  | cameraSent
  | loggedWrongId
  | raisedStopIteration
deriving DecidableEq, Repr

/-- The `send_command` service handler. -/
def send_command (registries : List Registry) (deviceid : String) : DispatchResult :=
  if deviceid.length == 10 then
    match registries.find? (fun r => hasKey r.devices deviceid) with
    | some _ => DispatchResult.sent
    | none => DispatchResult.raisedStopIteration
  else if deviceid.length == 6 then
    DispatchResult.cameraSent
  else
    DispatchResult.loggedWrongId

/-- Python truthiness of an optional string (`username and password`):
`None` and `""` are falsy. -/
def truthy : Option String → Bool
  | none => false
  | some s => s != ""

/-- Environment of one setup cycle: the entry's state and options, the
registry's cloud-auth flag, and the behaviour of the external collaborators
(what `login` would do, what `get_devices` and the cache would return). -/
structure Env where
  mode : Mode
  retryState : Bool
  auth : Bool
  username : Option String
  password : Option String
  loginResult : LoginResult
  cloudDevices : List Device
  cache : Option (List Device)
deriving Repr

/-- Result of one setup cycle: the action trace (launched tasks included),
the surfaced outcome (`none` = returned `True`), and the updated ownership
table and registry. -/
structure SetupResult where
  trace : List Action
  outcome : Option SetupError
  table : Table
  registry : Registry
deriving Repr

/-- `internal_cache_setup(hass, entry, devices)`: loads the cache when no
device list was supplied, filters through `internal_unique_devices` and
calls `setup_devices` when the list is truthy, then starts the transports
selected by mode (cloud only when `registry.cloud.auth` is held). -/
def internal_cache_setup (mode : Mode) (auth : Bool) (cache : Option (List Device))
    (uid : String) (t : Table) (r : Registry) (devices : Option (List Device)) :
    List Action × Table × Registry :=
  let load : List Action × Option (List Device) :=
    match devices with
    | some ds => ([], some ds)
    | none => ([Action.cacheLoad], cache)
  let setup : List Action × Table × Registry :=
    match load.2 with
    | some ds =>
        if ds.isEmpty then ([], t, r)
        else
          ([Action.setupDevices],
           (internal_unique_devices uid t ds).2,
           setup_devices r (internal_unique_devices uid t ds).1)
    | none => ([], t, r)
  let starts : List Action :=
    (if mode ≠ Mode.local ∧ auth = true then [Action.cloudStart] else [])
      ++ (if mode ≠ Mode.cloud then [Action.localStart] else [])
  (load.1 ++ setup.1 ++ starts, setup.2.1, setup.2.2)

/-- `internal_normal_setup(hass, entry)`: with cloud auth, enumerates devices
from the cloud and saves them to the cache, then runs `internal_cache_setup`
with that list; without auth, runs `internal_cache_setup` with no list
(forcing a cache load). -/
def internal_normal_setup (mode : Mode) (auth : Bool) (cloudDevices : List Device)
    (cache : Option (List Device)) (uid : String) (t : Table) (r : Registry) :
    List Action × Table × Registry :=
  if auth then
    ((Action.getDevices :: Action.cacheSave ::
        (internal_cache_setup mode auth cache uid t r (some cloudDevices)).1),
     (internal_cache_setup mode auth cache uid t r (some cloudDevices)).2.1,
     (internal_cache_setup mode auth cache uid t r (some cloudDevices)).2.2)
  else
    internal_cache_setup mode auth cache uid t r none

/-- `async_setup_entry(hass, entry)`. Modelled from the spec where the cloud
collaborator's internals are absent from the sources here: per spec §6 a
successful `login` records the auth token (so paths after a successful login
run with `auth = true`), and a failed login leaves `auth` absent. -/
def async_setup_entry (env : Env) (uid : String) (t : Table) (r : Registry) : SetupResult :=
  if env.retryState then
    if env.mode = Mode.auto ∨ env.mode = Mode.cloud then
      if env.loginResult = LoginResult.success then
        if env.mode = Mode.auto then
          ⟨[Action.login, Action.cloudStart], none, t, r⟩
        else
          ⟨Action.login :: Action.normalSetupLaunched ::
             (internal_normal_setup env.mode true env.cloudDevices env.cache uid t r).1,
           none,
           (internal_normal_setup env.mode true env.cloudDevices env.cache uid t r).2.1,
           (internal_normal_setup env.mode true env.cloudDevices env.cache uid t r).2.2⟩
      else
        ⟨[Action.login], some SetupError.ConfigEntryNotReady, t, r⟩
    else
      ⟨[], some SetupError.AssertionFailed, t, r⟩
  else
    if env.auth = false ∧ truthy env.username = true ∧ truthy env.password = true then
      if env.loginResult = LoginResult.success then
        ⟨Action.login :: Action.normalSetupLaunched ::
           (internal_normal_setup env.mode true env.cloudDevices env.cache uid t r).1,
         none,
         (internal_normal_setup env.mode true env.cloudDevices env.cache uid t r).2.1,
         (internal_normal_setup env.mode true env.cloudDevices env.cache uid t r).2.2⟩
      else
        let fb : List Action × Table × Registry :=
          if env.mode = Mode.auto ∨ env.mode = Mode.local then
            (Action.cacheSetupLaunched ::
               (internal_cache_setup env.mode false env.cache uid t r none).1,
             (internal_cache_setup env.mode false env.cache uid t r none).2.1,
             (internal_cache_setup env.mode false env.cache uid t r none).2.2)
          else
            ([], t, r)
        if env.mode = Mode.auto ∨ env.mode = Mode.cloud then
          if env.loginResult = LoginResult.authError then
            ⟨Action.login :: fb.1, some SetupError.ConfigEntryAuthFailed, fb.2.1, fb.2.2⟩
          else
            ⟨Action.login :: fb.1, some SetupError.ConfigEntryNotReady, fb.2.1, fb.2.2⟩
        else
          ⟨Action.login :: fb.1, none, fb.2.1, fb.2.2⟩
    else
      ⟨Action.normalSetupLaunched ::
         (internal_normal_setup env.mode env.auth env.cloudDevices env.cache uid t r).1,
       none,
       (internal_normal_setup env.mode env.auth env.cloudDevices env.cache uid t r).2.1,
       (internal_normal_setup env.mode env.auth env.cloudDevices env.cache uid t r).2.2⟩

/-! ## Helper lemmas about the ownership table -/

lemma find?_eq_none_of_lookup_none {t : Table} {k : String}
    (h : lookupTable t k = none) : t.find? (fun p => p.1 == k) = none := by
  unfold lookupTable at h
  cases hf : t.find? (fun p => p.1 == k) with
  | none => rfl
  | some p => rw [hf] at h; cases h

lemma setdefault_of_lookup_some {t : Table} {k v : String} (x : String)
    (h : lookupTable t k = some v) : setdefault t k x = (v, t) := by
  unfold lookupTable at h
  unfold setdefault
  cases hf : t.find? (fun p => p.1 == k) with
  | none =>
      rw [hf] at h
      exact Option.noConfusion h
  | some p =>
      rw [hf] at h
      have h' : some p.2 = some v := h
      have h2 : p.2 = v := Option.some.inj h'
      show (p.2, t) = (v, t)
      rw [h2]

lemma setdefault_of_lookup_none {t : Table} {k : String} (x : String)
    (h : lookupTable t k = none) : setdefault t k x = (x, t ++ [(k, x)]) := by
  unfold setdefault
  rw [find?_eq_none_of_lookup_none h]

lemma lookupTable_setdefault_self (t : Table) (k v : String) :
    lookupTable (setdefault t k v).2 k = some (setdefault t k v).1 := by
  unfold setdefault
  cases hf : t.find? (fun p => p.1 == k) with
  | some p => simp [lookupTable, hf]
  | none => simp [lookupTable, List.find?_append, hf]

lemma lookupTable_setdefault_preserved {t : Table} {k' v' : String} (k v : String)
    (h : lookupTable t k' = some v') :
    lookupTable (setdefault t k v).2 k' = some v' := by
  unfold setdefault
  cases hf : t.find? (fun p => p.1 == k) with
  | some p => exact h
  | none =>
      unfold lookupTable at h ⊢
      cases hf' : t.find? (fun p => p.1 == k') with
      | none => rw [hf'] at h; cases h
      | some q =>
          rw [hf'] at h
          rw [List.find?_append, hf']
          simpa using h

lemma lookupTable_setdefault_other {t : Table} {k k' : String} (v : String)
    (hne : k' ≠ k) (h : lookupTable t k' = none) :
    lookupTable (setdefault t k v).2 k' = none := by
  unfold setdefault
  cases hf : t.find? (fun p => p.1 == k) with
  | some p => exact h
  | none =>
      have hn := find?_eq_none_of_lookup_none h
      unfold lookupTable
      rw [List.find?_append, hn]
      simp [Ne.symm hne]

/-! ## C4: DedupArbiter claim is idempotent and first-write-wins -/

/-- C4: the ownership claim operation is idempotent and first-write-wins:
claiming `id` for `A` twice yields the same owner (and the same table) as
claiming it once, and — when `id` was unowned before `A` claimed it —
claiming `id` for `B` afterwards returns `A` and leaves the table unchanged. -/
theorem claim_idempotent_first_write_wins (t : Table) (id A B : String) :
    claim (claim t id A).2 id A = ((claim t id A).1, (claim t id A).2)
      ∧ (lookupTable t id = none →
          claim (claim t id A).2 id B = (A, (claim t id A).2)) := by
  constructor
  · exact setdefault_of_lookup_some A (lookupTable_setdefault_self t id A)
  · intro h
    have h2 := lookupTable_setdefault_self t id A
    have hA : (setdefault t id A).1 = A := by
      rw [setdefault_of_lookup_none A h]
    rw [hA] at h2
    exact setdefault_of_lookup_some B h2

/-- Witness for C4 at a concrete id and accounts. -/
theorem claim_idempotent_first_write_wins_witness :
    claim (claim [] "1000abcd12" "A").2 "1000abcd12" "A"
        = ((claim [] "1000abcd12" "A").1, (claim [] "1000abcd12" "A").2)
      ∧ claim (claim [] "1000abcd12" "A").2 "1000abcd12" "B"
        = ("A", (claim [] "1000abcd12" "A").2) :=
  ⟨(claim_idempotent_first_write_wins [] "1000abcd12" "A" "B").1,
   (claim_idempotent_first_write_wins [] "1000abcd12" "A" "B").2 rfl⟩

/-! ## C2: dispatch of an unknown 10-character device id -/

/-- C2 counterexample: for a 10-character id absent from every registry the
dispatcher raises (`next` over an exhausted generator), it does not produce
a logged-and-dropped error as the claim states. -/
theorem dispatch_unknown_device_raises :
    send_command [] "1234567890" = DispatchResult.raisedStopIteration
      ∧ DispatchResult.raisedStopIteration ≠ DispatchResult.loggedWrongId := by
  decide

/-- C2 (amended): for every dispatch call with a 10-character id absent from
every registry's device map, no transport call is made, but the dispatcher
raises an exception (`StopIteration`) to its caller instead of logging an
error and dropping the request. -/
theorem dispatch_unknown_device_no_send (registries : List Registry) (deviceid : String)
    (hlen : deviceid.length = 10)
    (habs : ∀ r ∈ registries, hasKey r.devices deviceid = false) :
    send_command registries deviceid = DispatchResult.raisedStopIteration := by
  have hf : registries.find? (fun r => hasKey r.devices deviceid) = none := by
    rw [List.find?_eq_none]
    intro r hr
    simp [habs r hr]
  simp [send_command, hlen, hf]

/-- Witness for C2's amended theorem at a concrete registry list and id. -/
theorem dispatch_unknown_device_no_send_witness :
    send_command [⟨[]⟩] "1000abcd12" = DispatchResult.raisedStopIteration :=
  dispatch_unknown_device_no_send [⟨[]⟩] "1000abcd12" (by decide) (by decide)

/-! ## C1: invalid credentials surfaced as fatal -/

/-- C1 counterexample: on a re-entrant retry attempt (`SETUP_RETRY`) with
mode `auto`, a login failure from invalid credentials is surfaced as the
retryable `ConfigEntryNotReady`, not as the fatal `ConfigEntryAuthFailed`,
contradicting the claim that invalid credentials are never surfaced as a
retryable failure on a retry attempt. -/
theorem retry_auth_error_surfaced_retryable :
    (async_setup_entry ⟨Mode.auto, true, false, some "user", some "pass",
        LoginResult.authError, [], none⟩ "A" [] ⟨[]⟩).outcome
        = some SetupError.ConfigEntryNotReady
      ∧ (async_setup_entry ⟨Mode.auto, true, false, some "user", some "pass",
          LoginResult.authError, [], none⟩ "A" [] ⟨[]⟩).outcome
        ≠ some SetupError.ConfigEntryAuthFailed := by
  decide

/-- C1 (amended): on the *first* setup attempt, a cloud login failure from
invalid credentials with mode `auto` or `cloud` is surfaced as the fatal,
non-retryable `ConfigEntryAuthFailed`; on a re-entrant retry attempt the
same failure is surfaced as the retryable `ConfigEntryNotReady` instead. -/
theorem first_attempt_invalid_credentials_fatal (mode : Mode)
    (hmode : mode = Mode.auto ∨ mode = Mode.cloud)
    (u p : String) (hu : u ≠ "") (hp : p ≠ "")
    (cds : List Device) (cache : Option (List Device))
    (uid : String) (t : Table) (r : Registry) :
    (async_setup_entry ⟨mode, false, false, some u, some p, LoginResult.authError,
        cds, cache⟩ uid t r).outcome = some SetupError.ConfigEntryAuthFailed
      ∧ (async_setup_entry ⟨mode, true, false, some u, some p, LoginResult.authError,
          cds, cache⟩ uid t r).outcome = some SetupError.ConfigEntryNotReady := by
  rcases hmode with h | h <;> subst h <;>
    simp [async_setup_entry, truthy, hu, hp]

/-- Witness for C1's amended theorem at concrete credentials. -/
theorem first_attempt_invalid_credentials_fatal_witness :
    (async_setup_entry ⟨Mode.auto, false, false, some "user", some "pass",
        LoginResult.authError, [], none⟩ "A" [] ⟨[]⟩).outcome
        = some SetupError.ConfigEntryAuthFailed
      ∧ (async_setup_entry ⟨Mode.auto, true, false, some "user", some "pass",
          LoginResult.authError, [], none⟩ "A" [] ⟨[]⟩).outcome
        = some SetupError.ConfigEntryNotReady :=
  first_attempt_invalid_credentials_fatal Mode.auto (Or.inl rfl) "user" "pass"
    (by decide) (by decide) [] none "A" [] ⟨[]⟩

/-! ## C6: transient failure in cloud mode -/

/-- C6: with mode `cloud` and a transient login failure on the first setup
attempt, the whole cycle performs only the login (so no local/cache
bootstrap is launched and no transport is started), and the failure is
surfaced as the retryable `ConfigEntryNotReady`. -/
theorem cloud_transient_failure_retryable_no_fallback (u p : String)
    (hu : u ≠ "") (hp : p ≠ "") (cds : List Device) (cache : Option (List Device))
    (uid : String) (t : Table) (r : Registry) :
    (async_setup_entry ⟨Mode.cloud, false, false, some u, some p,
        LoginResult.transientError, cds, cache⟩ uid t r).trace = [Action.login]
      ∧ (async_setup_entry ⟨Mode.cloud, false, false, some u, some p,
          LoginResult.transientError, cds, cache⟩ uid t r).outcome
        = some SetupError.ConfigEntryNotReady := by
  simp [async_setup_entry, truthy, hu, hp]

/-- Witness for C6 at concrete credentials. -/
theorem cloud_transient_failure_retryable_no_fallback_witness :
    (async_setup_entry ⟨Mode.cloud, false, false, some "user", some "pass",
        LoginResult.transientError, [], none⟩ "A" [] ⟨[]⟩).trace = [Action.login]
      ∧ (async_setup_entry ⟨Mode.cloud, false, false, some "user", some "pass",
          LoginResult.transientError, [], none⟩ "A" [] ⟨[]⟩).outcome
        = some SetupError.ConfigEntryNotReady :=
  cloud_transient_failure_retryable_no_fallback "user" "pass" (by decide) (by decide)
    [] none "A" [] ⟨[]⟩

/-! ## C3: auto mode with invalid credentials bootstraps once, never starts cloud -/

/-- C3: with mode `auto` and an invalid-credentials login failure on the
first setup attempt, the local/cache bootstrap is launched exactly once in
the cycle, and the cloud transport is never started (the launched bootstrap
skips the cloud-start branch because no auth is held). -/
theorem auto_invalid_credentials_bootstrap_once (u p : String)
    (hu : u ≠ "") (hp : p ≠ "") (cds : List Device) (cache : Option (List Device))
    (uid : String) (t : Table) (r : Registry) :
    ((async_setup_entry ⟨Mode.auto, false, false, some u, some p,
        LoginResult.authError, cds, cache⟩ uid t r).trace).count
        Action.cacheSetupLaunched = 1
      ∧ Action.cloudStart ∉ (async_setup_entry ⟨Mode.auto, false, false, some u,
          some p, LoginResult.authError, cds, cache⟩ uid t r).trace := by
  rcases cache with _ | (_ | ⟨d, ds⟩) <;>
    simp [async_setup_entry, internal_cache_setup, truthy, hu, hp, List.count_cons]

/-- Witness for C3 at concrete credentials and an empty cache. -/
theorem auto_invalid_credentials_bootstrap_once_witness :
    ((async_setup_entry ⟨Mode.auto, false, false, some "user", some "pass",
        LoginResult.authError, [], none⟩ "A" [] ⟨[]⟩).trace).count
        Action.cacheSetupLaunched = 1
      ∧ Action.cloudStart ∉ (async_setup_entry ⟨Mode.auto, false, false, some "user",
          some "pass", LoginResult.authError, [], none⟩ "A" [] ⟨[]⟩).trace :=
  auto_invalid_credentials_bootstrap_once "user" "pass" (by decide) (by decide)
    [] none "A" [] ⟨[]⟩

/-! ## C7: re-entry after a retryable failure, renewed success -/

/-- C7: on a retry re-entry (`SETUP_RETRY`) whose renewed login succeeds,
the cache/local bootstrap is not re-run: with mode `auto` the cycle performs
exactly the login and the cloud-transport restart; with mode `cloud` it
schedules the full bootstrap — device enumeration, cache save, device
population, cloud transport start — with no cache load and no local start. -/
theorem retry_success_no_cache_rerun (a : Bool) (u p : Option String)
    (cds : List Device) (hcds : cds ≠ [])
    (cache : Option (List Device)) (uid : String) (t : Table) (r : Registry) :
    (async_setup_entry ⟨Mode.auto, true, a, u, p, LoginResult.success, cds, cache⟩
        uid t r).trace = [Action.login, Action.cloudStart]
      ∧ (async_setup_entry ⟨Mode.auto, true, a, u, p, LoginResult.success, cds, cache⟩
          uid t r).outcome = none
      ∧ (async_setup_entry ⟨Mode.cloud, true, a, u, p, LoginResult.success, cds, cache⟩
          uid t r).trace
        = [Action.login, Action.normalSetupLaunched, Action.getDevices,
           Action.cacheSave, Action.setupDevices, Action.cloudStart]
      ∧ (async_setup_entry ⟨Mode.cloud, true, a, u, p, LoginResult.success, cds, cache⟩
          uid t r).outcome = none := by
  rcases cds with _ | ⟨d, ds⟩
  · exact absurd rfl hcds
  · simp [async_setup_entry, internal_normal_setup, internal_cache_setup]

/-- Witness for C7 at a concrete nonempty cloud device list. -/
theorem retry_success_no_cache_rerun_witness :
    (async_setup_entry ⟨Mode.auto, true, false, some "user", some "pass",
        LoginResult.success, [⟨"1000abcd12", []⟩], none⟩ "A" [] ⟨[]⟩).trace
        = [Action.login, Action.cloudStart]
      ∧ (async_setup_entry ⟨Mode.auto, true, false, some "user", some "pass",
          LoginResult.success, [⟨"1000abcd12", []⟩], none⟩ "A" [] ⟨[]⟩).outcome = none
      ∧ (async_setup_entry ⟨Mode.cloud, true, false, some "user", some "pass",
          LoginResult.success, [⟨"1000abcd12", []⟩], none⟩ "A" [] ⟨[]⟩).trace
        = [Action.login, Action.normalSetupLaunched, Action.getDevices,
           Action.cacheSave, Action.setupDevices, Action.cloudStart]
      ∧ (async_setup_entry ⟨Mode.cloud, true, false, some "user", some "pass",
          LoginResult.success, [⟨"1000abcd12", []⟩], none⟩ "A" [] ⟨[]⟩).outcome = none :=
  retry_success_no_cache_rerun false (some "user") (some "pass")
    [⟨"1000abcd12", []⟩] (by decide) none "A" [] ⟨[]⟩

/-! ## C8: local mode without a password completes without a login -/

/-- C8: with mode `local` and no password configured, the setup invocation
never attempts a cloud login, surfaces no error (returns success), and runs
the normal setup path to completion. -/
theorem local_mode_no_password_ready (a : Bool) (u : Option String)
    (lr : LoginResult) (cds : List Device) (cache : Option (List Device))
    (uid : String) (t : Table) (r : Registry) :
    Action.login ∉ (async_setup_entry ⟨Mode.local, false, a, u, none, lr, cds, cache⟩
        uid t r).trace
      ∧ (async_setup_entry ⟨Mode.local, false, a, u, none, lr, cds, cache⟩
          uid t r).outcome = none
      ∧ Action.normalSetupLaunched ∈ (async_setup_entry
          ⟨Mode.local, false, a, u, none, lr, cds, cache⟩ uid t r).trace := by
  cases a <;>
    rcases cds with _ | ⟨d, ds⟩ <;>
      rcases cache with _ | (_ | ⟨d', ds'⟩) <;>
        simp [async_setup_entry, internal_normal_setup, internal_cache_setup, truthy]

/-! ## C10: missing credentials skip login for every mode -/

/-- C10: when no cloud auth is held and the username or the password is
missing (absent or empty), no login is attempted regardless of mode, the
normal setup path — which falls back to the device cache — is scheduled,
and the invocation returns success. -/
theorem no_credentials_skips_login (mode : Mode) (u p : Option String)
    (hcred : truthy u = false ∨ truthy p = false)
    (lr : LoginResult) (cds : List Device) (cache : Option (List Device))
    (uid : String) (t : Table) (r : Registry) :
    Action.login ∉ (async_setup_entry ⟨mode, false, false, u, p, lr, cds, cache⟩
        uid t r).trace
      ∧ Action.normalSetupLaunched ∈ (async_setup_entry
          ⟨mode, false, false, u, p, lr, cds, cache⟩ uid t r).trace
      ∧ Action.cacheLoad ∈ (async_setup_entry ⟨mode, false, false, u, p, lr, cds, cache⟩
          uid t r).trace
      ∧ (async_setup_entry ⟨mode, false, false, u, p, lr, cds, cache⟩
          uid t r).outcome = none := by
  rcases hcred with h | h <;>
    cases mode <;>
      rcases cache with _ | (_ | ⟨d, ds⟩) <;>
        simp [async_setup_entry, internal_normal_setup, internal_cache_setup, h]

/-- Witness for C10: mode `cloud` with a username but no password. -/
theorem no_credentials_skips_login_witness :
    Action.login ∉ (async_setup_entry ⟨Mode.cloud, false, false, some "user", none,
        LoginResult.success, [], none⟩ "A" [] ⟨[]⟩).trace
      ∧ Action.normalSetupLaunched ∈ (async_setup_entry ⟨Mode.cloud, false, false,
          some "user", none, LoginResult.success, [], none⟩ "A" [] ⟨[]⟩).trace
      ∧ Action.cacheLoad ∈ (async_setup_entry ⟨Mode.cloud, false, false, some "user",
          none, LoginResult.success, [], none⟩ "A" [] ⟨[]⟩).trace
      ∧ (async_setup_entry ⟨Mode.cloud, false, false, some "user", none,
          LoginResult.success, [], none⟩ "A" [] ⟨[]⟩).outcome = none :=
  no_credentials_skips_login Mode.cloud (some "user") none (Or.inr rfl)
    LoginResult.success [] none "A" [] ⟨[]⟩

/-! ## Lemmas about the ownership filter -/

lemma lookupTable_unique_devices_preserved {t : Table} {k v : String} (uid : String)
    (ds : List Device) (h : lookupTable t k = some v) :
    lookupTable (internal_unique_devices uid t ds).2 k = some v := by
  induction ds generalizing t with
  | nil => exact h
  | cons d rest ih =>
      exact ih (lookupTable_setdefault_preserved d.deviceid uid h)

lemma unique_devices_invariant (uid : String) (t : Table) (ds : List Device) :
    List.Sublist (internal_unique_devices uid t ds).1 ds
      ∧ ∀ d ∈ (internal_unique_devices uid t ds).1,
          lookupTable (internal_unique_devices uid t ds).2 d.deviceid = some uid := by
  induction ds generalizing t with
  | nil =>
      refine ⟨List.Sublist.slnil, ?_⟩
      intro d hd
      cases hd
  | cons d rest ih =>
      by_cases hb : ((setdefault t d.deviceid uid).1 == uid) = true
      · constructor
        · simp only [internal_unique_devices, if_pos hb]
          exact List.Sublist.cons₂ d (ih (setdefault t d.deviceid uid).2).1
        · intro x hx
          simp only [internal_unique_devices, if_pos hb] at hx ⊢
          rcases List.mem_cons.mp hx with rfl | hx'
          · have hself := lookupTable_setdefault_self t x.deviceid uid
            have huid : (setdefault t x.deviceid uid).1 = uid := by
              simpa using hb
            rw [huid] at hself
            exact lookupTable_unique_devices_preserved uid rest hself
          · exact (ih (setdefault t d.deviceid uid).2).2 x hx'
      · constructor
        · simp only [internal_unique_devices, if_neg hb]
          exact List.Sublist.cons d (ih (setdefault t d.deviceid uid).2).1
        · intro x hx
          simp only [internal_unique_devices, if_neg hb] at hx ⊢
          exact (ih (setdefault t d.deviceid uid).2).2 x hx

/-! ## C9: the ownership filter returns an owned subsequence -/

/-- C9: `internal_unique_devices` returns a subsequence of its input (order
preserved, no element introduced), and after the call every returned
device's id is bound to the calling account id in the ownership table. -/
theorem unique_devices_sublist_owned (t : Table) (uid : String) (ds : List Device) :
    List.Sublist (internal_unique_devices uid t ds).1 ds
      ∧ ∀ d ∈ (internal_unique_devices uid t ds).1,
          lookupTable (internal_unique_devices uid t ds).2 d.deviceid = some uid :=
  unique_devices_invariant uid t ds

/-- Witness for C9 at a concrete table, account and device list. -/
theorem unique_devices_sublist_owned_witness :
    List.Sublist (internal_unique_devices "A" [] [⟨"1000abcd12", []⟩]).1
        [(⟨"1000abcd12", []⟩ : Device)]
      ∧ lookupTable (internal_unique_devices "A" [] [⟨"1000abcd12", []⟩]).2
          "1000abcd12" = some "A" :=
  ⟨(unique_devices_sublist_owned [] "A" [⟨"1000abcd12", []⟩]).1,
   (unique_devices_sublist_owned [] "A" [⟨"1000abcd12", []⟩]).2
     ⟨"1000abcd12", []⟩ (by decide)⟩

lemma unique_devices_keeps_fresh (uid i : String) (t : Table) (ds : List Device)
    (hfresh : lookupTable t i = none) (d : Device) (hd : d ∈ ds)
    (hid : d.deviceid = i) :
    ∃ d' ∈ (internal_unique_devices uid t ds).1, d'.deviceid = i := by
  induction ds generalizing t with
  | nil => cases hd
  | cons a rest ih =>
      by_cases ha : a.deviceid = i
      · have hsd : setdefault t a.deviceid uid = (uid, t ++ [(a.deviceid, uid)]) := by
          rw [ha]
          exact setdefault_of_lookup_none uid hfresh
        refine ⟨a, ?_, ha⟩
        simp only [internal_unique_devices, hsd]
        simp
      · rcases List.mem_cons.mp hd with rfl | hd'
        · exact absurd hid ha
        · have hfresh' : lookupTable (setdefault t a.deviceid uid).2 i = none :=
            lookupTable_setdefault_other uid (fun he => ha he.symm) hfresh
          obtain ⟨d', hd'', hi'⟩ := ih _ hfresh' hd'
          refine ⟨d', ?_, hi'⟩
          simp only [internal_unique_devices]
          by_cases hb : ((setdefault t a.deviceid uid).1 == uid) = true <;>
            simp [hb, hd'']

lemma unique_devices_claims (uid i : String) (t : Table) (ds : List Device)
    (hfresh : lookupTable t i = none) (d : Device) (hd : d ∈ ds)
    (hid : d.deviceid = i) :
    lookupTable (internal_unique_devices uid t ds).2 i = some uid := by
  obtain ⟨d', hd', hi'⟩ := unique_devices_keeps_fresh uid i t ds hfresh d hd hid
  have h := (unique_devices_invariant uid t ds).2 d' hd'
  rwa [hi'] at h

lemma unique_devices_drops_owned (uid i w : String) (hw : w ≠ uid)
    (t : Table) (ds : List Device) (howned : lookupTable t i = some w) :
    ∀ d' ∈ (internal_unique_devices uid t ds).1, d'.deviceid ≠ i := by
  induction ds generalizing t with
  | nil =>
      intro d' hd'
      cases hd'
  | cons a rest ih =>
      intro d' hd'
      have hpres : lookupTable (setdefault t a.deviceid uid).2 i = some w :=
        lookupTable_setdefault_preserved a.deviceid uid howned
      simp only [internal_unique_devices] at hd'
      by_cases hb : ((setdefault t a.deviceid uid).1 == uid) = true
      · rw [if_pos hb] at hd'
        rcases List.mem_cons.mp hd' with rfl | hd''
        · intro hai
          have hfound : setdefault t d'.deviceid uid = (w, t) := by
            rw [hai]
            exact setdefault_of_lookup_some uid howned
          rw [hfound] at hb
          simp at hb
          exact hw hb
        · exact ih _ hpres d' hd''
      · rw [if_neg hb] at hd'
        exact ih _ hpres d' hd'

/-! ## Lemmas about the registry device map -/

lemma hasKey_map_replace (m : DeviceMap) (d : Device) (k : String) :
    hasKey (m.map (fun p => if p.1 == d.deviceid then (p.1, d) else p)) k
      = hasKey m k := by
  unfold hasKey
  rw [List.any_map]
  congr 1
  funext p
  show ((if p.1 == d.deviceid then (p.1, d) else p).1 == k) = (p.1 == k)
  split <;> rfl

lemma hasKey_insertDevice_self (m : DeviceMap) (d : Device) :
    hasKey (insertDevice m d) d.deviceid = true := by
  unfold insertDevice
  by_cases h : hasKey m d.deviceid = true
  · rw [if_pos h, hasKey_map_replace]
    exact h
  · rw [if_neg h]
    unfold hasKey
    rw [List.any_append]
    simp

lemma hasKey_insertDevice_preserved (m : DeviceMap) (d : Device) (k : String)
    (h : hasKey m k = true) : hasKey (insertDevice m d) k = true := by
  unfold insertDevice
  by_cases hm : hasKey m d.deviceid = true
  · rw [if_pos hm, hasKey_map_replace]
    exact h
  · rw [if_neg hm]
    unfold hasKey at h ⊢
    rw [List.any_append, h]
    rfl

lemma hasKey_insertDevice_other (m : DeviceMap) (d : Device) (k : String)
    (hne : d.deviceid ≠ k) (h : hasKey m k = false) :
    hasKey (insertDevice m d) k = false := by
  unfold insertDevice
  by_cases hm : hasKey m d.deviceid = true
  · rw [if_pos hm, hasKey_map_replace]
    exact h
  · rw [if_neg hm]
    unfold hasKey at h ⊢
    rw [List.any_append, h]
    simp [hne]

lemma hasKey_foldl_insert_preserved (ds : List Device) (m : DeviceMap) (k : String)
    (h : hasKey m k = true) : hasKey (ds.foldl insertDevice m) k = true := by
  induction ds generalizing m with
  | nil => exact h
  | cons a rest ih => exact ih _ (hasKey_insertDevice_preserved m a k h)

lemma hasKey_foldl_insert_mem (ds : List Device) (m : DeviceMap) (d : Device)
    (hd : d ∈ ds) : hasKey (ds.foldl insertDevice m) d.deviceid = true := by
  induction ds generalizing m with
  | nil => cases hd
  | cons a rest ih =>
      rcases List.mem_cons.mp hd with rfl | hd'
      · exact hasKey_foldl_insert_preserved rest _ _ (hasKey_insertDevice_self m d)
      · exact ih _ hd'

lemma hasKey_foldl_insert_absent (ds : List Device) (m : DeviceMap) (k : String)
    (habs : ∀ d ∈ ds, d.deviceid ≠ k) (h : hasKey m k = false) :
    hasKey (ds.foldl insertDevice m) k = false := by
  induction ds generalizing m with
  | nil => exact h
  | cons a rest ih =>
      exact ih _ (fun d hd => habs d (List.mem_cons_of_mem a hd))
        (hasKey_insertDevice_other m a k (habs a (List.mem_cons_self a rest)) h)

lemma internal_cache_setup_some_state (mode : Mode) (auth : Bool)
    (cache : Option (List Device)) (uid : String) (t : Table) (r : Registry)
    (d : Device) (ds : List Device) :
    (internal_cache_setup mode auth cache uid t r (some (d :: ds))).2.1
        = (internal_unique_devices uid t (d :: ds)).2
      ∧ (internal_cache_setup mode auth cache uid t r (some (d :: ds))).2.2
        = setup_devices r (internal_unique_devices uid t (d :: ds)).1 :=
  ⟨rfl, rfl⟩

/-! ## C5: two accounts reporting the same device, first claimant wins -/

/-- C5: when accounts `A` and `B` both report a device with the same
10-character id and `A`'s device population runs before `B`'s, then after
both complete the setup-devices step, `A`'s registry device map contains
the device and `B`'s does not. -/
theorem two_accounts_first_claim_wins
    (mA mB : Mode) (aA aB : Bool) (cA cB : Option (List Device))
    (uidA uidB : String) (hAB : uidA ≠ uidB)
    (t : Table) (rA rB : Registry)
    (dsA dsB : List Device) (i : String) (hlen : i.length = 10)
    (dA : Device) (hdA : dA ∈ dsA) (hidA : dA.deviceid = i)
    (dB : Device) (hdB : dB ∈ dsB) (hidB : dB.deviceid = i)
    (hfresh : lookupTable t i = none)
    (hBfresh : hasKey rB.devices i = false) :
    hasKey (internal_cache_setup mA aA cA uidA t rA (some dsA)).2.2.devices i = true
      ∧ hasKey (internal_cache_setup mB aB cB uidB
          (internal_cache_setup mA aA cA uidA t rA (some dsA)).2.1 rB
          (some dsB)).2.2.devices i = false := by
  rcases dsA with _ | ⟨a0, dsA'⟩
  · cases hdA
  rcases dsB with _ | ⟨b0, dsB'⟩
  · cases hdB
  obtain ⟨hstA1, hstA2⟩ :=
    internal_cache_setup_some_state mA aA cA uidA t rA a0 dsA'
  have howned : lookupTable (internal_unique_devices uidA t (a0 :: dsA')).2 i
      = some uidA :=
    unique_devices_claims uidA i t (a0 :: dsA') hfresh dA hdA hidA
  constructor
  · rw [hstA2]
    obtain ⟨d', hd', hi'⟩ :=
      unique_devices_keeps_fresh uidA i t (a0 :: dsA') hfresh dA hdA hidA
    have h := hasKey_foldl_insert_mem
      (internal_unique_devices uidA t (a0 :: dsA')).1 rA.devices d' hd'
    rw [hi'] at h
    exact h
  · rw [hstA1]
    obtain ⟨hstB1, hstB2⟩ :=
      internal_cache_setup_some_state mB aB cB uidB
        (internal_unique_devices uidA t (a0 :: dsA')).2 rB b0 dsB'
    rw [hstB2]
    have habs := unique_devices_drops_owned uidB i uidA (Ne.symm hAB).symm
      (internal_unique_devices uidA t (a0 :: dsA')).2 (b0 :: dsB') howned
    exact hasKey_foldl_insert_absent _ rB.devices i habs hBfresh

/-- Witness for C5: both accounts report `"1000abcd12"`; account `"A"`
populates first, account `"B"` second. -/
theorem two_accounts_first_claim_wins_witness :
    hasKey (internal_cache_setup Mode.auto false none "A" [] ⟨[]⟩
        (some [⟨"1000abcd12", []⟩])).2.2.devices "1000abcd12" = true
      ∧ hasKey (internal_cache_setup Mode.auto false none "B"
          (internal_cache_setup Mode.auto false none "A" [] ⟨[]⟩
            (some [⟨"1000abcd12", []⟩])).2.1 ⟨[]⟩
          (some [⟨"1000abcd12", []⟩])).2.2.devices "1000abcd12" = false :=
  two_accounts_first_claim_wins Mode.auto Mode.auto false false none none
    "A" "B" (by decide) [] ⟨[]⟩ ⟨[]⟩
    [⟨"1000abcd12", []⟩] [⟨"1000abcd12", []⟩] "1000abcd12" (by decide)
    ⟨"1000abcd12", []⟩ (by decide) rfl
    ⟨"1000abcd12", []⟩ (by decide) rfl
    rfl rfl

end Sonoff
